import Mathlib

/-!
Shallow embedding of the quota/subscription layer, the text utilities and the
knowledge-base layer of the Marketing Bot TG repository
(`project/bot/database/db_manager.py`, `project/bot/database/async_db_manager.py`,
`project/bot/handlers/message_handler.py`, `project/bot/utils/text_utils.py`,
`project/bot/knowledge_base/kb_manager.py`).

The SQLite store is modelled as explicit lists of rows; timestamps are natural
numbers; SQL NULL is `Option.none`.  Each definition carries a comment pointing
to the Python source it embeds.
-/

namespace TGBot

/-- A row of the `users` table (`db_manager.py`, `setup_database`):
`user_id INTEGER PRIMARY KEY, subscription_status TEXT DEFAULT 'free',
messages_count INTEGER DEFAULT 0, message_limit INTEGER DEFAULT NULL,
last_activity DATETIME, subscription_expiry DATETIME DEFAULT NULL`. -/
structure UserRow where
  user_id : Nat
  subscription_status : String
  messages_count : Option Nat
  message_limit : Option Int
  last_activity : Nat
  subscription_expiry : Option Nat
deriving Repr, DecidableEq

/-- A row of the `chat_history` table:
`user_id INTEGER, message TEXT, response TEXT, timestamp DATETIME`. -/
structure ChatRow where
  user_id : Nat
  message : String
  response : Option String
  timestamp : Nat
deriving Repr, DecidableEq

/-- The user-facing part of the SQLite database. -/
structure DB where
  users : List UserRow
  chat_history : List ChatRow
deriving Repr, DecidableEq

/-- `SELECT ... FROM users WHERE user_id = ?` (first row; `user_id` is the
primary key so at most one row matches). -/
def findUser (db : DB) (uid : Nat) : Option UserRow :=
  db.users.find? (fun u => u.user_id == uid)

/-- `Config.SUBSCRIPTION_LIMITS` from `config/settings.py`:
`{'free': 5, 'premium': 500}`, queried with `.get(subscription, 50)`. -/
def SUBSCRIPTION_LIMITS (s : String) : Option Int :=
  if s = "free" then some 5 else if s = "premium" then some 500 else none

/-- `DBManager.update_user_activity` (sync `db_manager.py`):
`INSERT OR REPLACE INTO users (user_id, last_activity) VALUES (?, ?)`.
SQLite REPLACE deletes the conflicting row and inserts a fresh one, so all
unspecified columns take their schema defaults. -/
def update_user_activity (db : DB) (uid : Nat) (now : Nat) : DB :=
  { db with users :=
      db.users.filter (fun u => u.user_id != uid) ++
      [{ user_id := uid, subscription_status := "free", messages_count := some 0,
         message_limit := none, last_activity := now, subscription_expiry := none }] }

/-- `AsyncDBManager.update_user_activity` (`async_db_manager.py`): checks for the
row first; if absent, `INSERT INTO users (user_id, last_activity,
subscription_status) VALUES (?, ?, 'free')` (so `messages_count` takes its
default 0); otherwise `UPDATE users SET last_activity = ? WHERE user_id = ?`. -/
def async_update_user_activity (db : DB) (uid : Nat) (now : Nat) : DB :=
  match findUser db uid with
  | none =>
      { db with users := db.users ++
          [{ user_id := uid, subscription_status := "free", messages_count := some 0,
             message_limit := none, last_activity := now, subscription_expiry := none }] }
  | some _ =>
      { db with users := db.users.map (fun u =>
          if u.user_id == uid then { u with last_activity := now } else u) }

/-- `increment_message_count` (identical logic in `db_manager.py` and
`async_db_manager.py`): if no row exists, `INSERT INTO users (user_id,
messages_count, subscription_status, last_activity) VALUES (?, 1, 'free', ?)`;
otherwise `UPDATE users SET messages_count = messages_count + 1,
last_activity = ? WHERE user_id = ?` (SQL `NULL + 1` stays NULL). Returns the
success flag. -/
def increment_message_count (db : DB) (uid : Nat) (now : Nat) : DB × Bool :=
  match findUser db uid with
  | none =>
      ({ db with users := db.users ++
          [{ user_id := uid, subscription_status := "free", messages_count := some 1,
             message_limit := none, last_activity := now, subscription_expiry := none }] },
       true)
  | some _ =>
      ({ db with users := db.users.map (fun u =>
          if u.user_id == uid then
            { u with messages_count := u.messages_count.map (· + 1), last_activity := now }
          else u) },
       true)

/-- `get_user_message_count` (identical logic in `db_manager.py` and
`async_db_manager.py`): returns the stored counter; if the row is absent or the
counter is NULL it counts `chat_history` rows for the user, then backfills via
`INSERT OR REPLACE INTO users (user_id, messages_count, subscription_status,
last_activity) VALUES (?, ?, <existing status or 'free'>, CURRENT_TIMESTAMP)`
(so `message_limit` and `subscription_expiry` take their NULL defaults). -/
def get_user_message_count (db : DB) (uid : Nat) (now : Nat) : DB × Nat :=
  let fallback : DB × Nat :=
    let count := (db.chat_history.filter (fun r => r.user_id == uid)).length
    let status := match findUser db uid with
      | some u => u.subscription_status
      | none => "free"
    ({ db with users :=
        db.users.filter (fun u => u.user_id != uid) ++
        [{ user_id := uid, subscription_status := status, messages_count := some count,
           message_limit := none, last_activity := now, subscription_expiry := none }] },
     count)
  match findUser db uid with
  | none => fallback
  | some u =>
      match u.messages_count with
      | none => fallback
      | some c => (db, c)

/-- `check_subscription_expiry` (identical logic in both managers): if the user
is premium with an expiry timestamp that has passed, `UPDATE users SET
subscription_status = 'free', message_limit = NULL WHERE user_id = ?`. -/
def check_subscription_expiry (db : DB) (uid : Nat) (now : Nat) : DB :=
  match findUser db uid with
  | none => db
  | some u =>
      if u.subscription_status ≠ "premium" then db
      else
        match u.subscription_expiry with
        | none => db
        | some e =>
            if now > e then
              { db with users := db.users.map (fun v =>
                  if v.user_id == uid then
                    { v with subscription_status := "free", message_limit := none }
                  else v) }
            else db

/-- `get_subscription_status` (identical logic in both managers): first runs
`check_subscription_expiry` as a side effect, then reads the status, returning
`'free'` when no row exists. -/
def get_subscription_status (db : DB) (uid : Nat) (now : Nat) : DB × String :=
  let db1 := check_subscription_expiry db uid now
  match findUser db1 uid with
  | some u => (db1, u.subscription_status)
  | none => (db1, "free")

/-- `DBManager.get_message_limit` (sync `db_manager.py`): the guard is the
Python truthiness test `if result and result[0] and result[0][0]:`, so the
per-user override is honoured only when it is non-NULL *and nonzero*; otherwise
`config.SUBSCRIPTION_LIMITS.get(get_subscription_status(user_id), 50)`. -/
def get_message_limit (db : DB) (uid : Nat) (now : Nat) : DB × Int :=
  let tier : DB × Int :=
    let r := get_subscription_status db uid now
    (r.1, (SUBSCRIPTION_LIMITS r.2).getD 50)
  match findUser db uid with
  | none => tier
  | some u =>
      match u.message_limit with
      | none => tier
      | some l => if l ≠ 0 then (db, l) else tier

/-- `AsyncDBManager.get_message_limit` (`async_db_manager.py`): the guard is
`if result and result[0]['message_limit'] is not None:`, so any non-NULL
override (including 0) is returned; otherwise the tier limit. -/
def async_get_message_limit (db : DB) (uid : Nat) (now : Nat) : DB × Int :=
  let tier : DB × Int :=
    let r := get_subscription_status db uid now
    (r.1, (SUBSCRIPTION_LIMITS r.2).getD 50)
  match findUser db uid with
  | none => tier
  | some u =>
      match u.message_limit with
      | none => tier
      | some l => (db, l)

/-- `save_chat_message` with `response=None`:
`INSERT INTO chat_history (user_id, message, timestamp) VALUES (?, ?, ?)`. -/
def save_chat_message (db : DB) (uid : Nat) (msg : String) (resp : Option String)
    (now : Nat) : DB :=
  { db with chat_history := db.chat_history ++ [⟨uid, msg, resp, now⟩] }

/-- Outcome of `handle_message` as far as the quota gate is concerned. -/
inductive HandlerOutcome where
  | rejected
  | processed
deriving Repr, DecidableEq

/-- The quota-relevant prefix of `handle_message`
(`handlers/message_handler.py`, which uses `AsyncDBManager`):
update activity, save the incoming message, read the count (for logging),
increment the count, read subscription status, re-read the count, read the
limit, then reject with the quota message iff `msg_count > limit`. -/
def handle_message (db : DB) (uid : Nat) (msg : String) (now : Nat) :
    DB × HandlerOutcome :=
  let db1 := async_update_user_activity db uid now
  let db2 := save_chat_message db1 uid msg none now
  let r3 := get_user_message_count db2 uid now
  let r4 := increment_message_count r3.1 uid now
  let r5 := get_subscription_status r4.1 uid now
  let r6 := get_user_message_count r5.1 uid now
  let r7 := async_get_message_limit r6.1 uid now
  if (r6.2 : Int) > r7.2 then (r7.1, .rejected) else (r7.1, .processed)

/-! ### Text utilities (`utils/text_utils.py`) -/

/-- Python `str.rfind(ch)` restricted to a full list: index of the *last*
occurrence of `ch`, or `none` when absent (Python returns -1). -/
def pyRfind (ch : Char) : List Char → Option Nat
  | [] => none
  | c :: cs =>
      match pyRfind ch cs with
      | some i => some (i + 1)
      | none => if c = ch then some 0 else none

/-- One loop iteration of `split_message`: the cut index `cutoff` computed by
`text[:max_length].rfind('\n')`, else `rfind(' ')`, else `max_length - 1`
(Python int, hence `-1` when `max_length = 0`). -/
def splitCutoff (text : List Char) (maxLength : Nat) : Int :=
  let window := text.take maxLength
  match pyRfind '\n' window with
  | some i => (i : Int)
  | none =>
      match pyRfind ' ' window with
      | some i => (i : Int)
      | none => (maxLength : Int) - 1

/-- The `while text:` loop of `split_message`, with explicit fuel standing in
for Python's unbounded iteration (`none` = the loop did not terminate within
`fuel` steps, which happens exactly in the cases where the Python loop spins
forever, e.g. `max_length = 0` on a long text). -/
def splitLoop (fuel : Nat) (text : List Char) (maxLength : Nat) :
    Option (List (List Char)) :=
  match fuel with
  | 0 => none
  | fuel + 1 =>
      if text = [] then some []
      else if text.length ≤ maxLength then some [text]
      else
        let k := (splitCutoff text maxLength + 1).toNat
        match splitLoop fuel (text.drop k) maxLength with
        | some rest => some (text.take k :: rest)
        | none => none

/-- `split_message(text, max_length)` from `utils/text_utils.py`: returns the
text whole when it fits, otherwise runs the cutting loop.  `text.length + 1`
fuel is enough whenever the Python loop terminates, because every iteration
consumes at least one character (see the theorems below). -/
def split_message (text : List Char) (maxLength : Nat) : Option (List (List Char)) :=
  if text.length ≤ maxLength then some [text]
  else splitLoop (text.length + 1) text maxLength

/-! ### Knowledge base (`knowledge_base/kb_manager.py`)

Text is modelled as `List Char`.  Both `str.lower()` (Python) and `LOWER`
(SQLite) are modelled as ASCII lowercasing — the folding the two share; the
claims settled here do not depend on their difference over non-ASCII input. -/

/-- ASCII lowercasing of a character list (`Char.toLower` folds `'A'..'Z'`). -/
def lowerL (l : List Char) : List Char := l.map Char.toLower

/-- The whitespace class of Python `str.split()` with no argument
(ASCII part: space, tab, newline, carriage return, vertical tab, form feed). -/
def pyIsSpace (c : Char) : Bool :=
  c == ' ' || c == '\t' || c == '\n' || c == '\r' || c == '\x0b' || c == '\x0c'

/-- Helper for `pySplit`: accumulates the current word (reversed). -/
def pySplitGo : List Char → List Char → List (List Char)
  | [], acc => if acc.isEmpty then [] else [acc.reverse]
  | c :: rest, acc =>
      if pyIsSpace c then
        if acc.isEmpty then pySplitGo rest [] else acc.reverse :: pySplitGo rest []
      else pySplitGo rest (c :: acc)

/-- Python `str.split()` with no argument: splits on runs of whitespace and
drops empty pieces. -/
def pySplit (l : List Char) : List (List Char) := pySplitGo l []

/-- SQLite `LIKE` pattern matching: `%` matches any sequence, `_` any single
character, other characters match themselves.  (SQLite's LIKE also folds ASCII
case, but `search_in_knowledge_base` lowercases both the pattern body —
`query.lower()` — and the subject — `LOWER(c.content)` — before matching, and
ASCII lowering is idempotent, so on these pre-lowered operands the folding is
the identity and matching is exact.) -/
def likeMatch : List Char → List Char → Bool
  | [], s => s.isEmpty
  | p :: ps, s =>
      if p = '%' then s.tails.any (fun suf => likeMatch ps suf)
      else
        match s with
        | [] => false
        | c :: s2 => (if p = '_' then true else p == c) && likeMatch ps s2

/-- Boolean substring test: does `sub` occur contiguously inside `s`? -/
def isSubstrB (sub : List Char) : List Char → Bool
  | [] => sub.isEmpty
  | c :: rest => sub.isPrefixOf (c :: rest) || isSubstrB sub rest

/-- A row of `knowledge_base_docs` (`kb_manager.py`, `_setup_database`):
`doc_id INTEGER PRIMARY KEY AUTOINCREMENT, filename TEXT UNIQUE, title,
upload_date, file_path, num_pages, admin_id`. -/
structure DocRow where
  doc_id : Nat
  filename : String
  title : String
  upload_date : Nat
  file_path : String
  num_pages : Nat
  admin_id : Nat
deriving Repr, DecidableEq

/-- A row of `knowledge_base_content`:
`content_id INTEGER PRIMARY KEY AUTOINCREMENT, doc_id, page_num, content`. -/
structure ContentRow where
  content_id : Nat
  doc_id : Nat
  page_num : Nat
  content : List Char
deriving Repr, DecidableEq

/-- The knowledge-base part of the SQLite database. -/
structure KB where
  docs : List DocRow
  contents : List ContentRow
deriving Repr, DecidableEq

/-- A row of the join
`FROM knowledge_base_content c JOIN knowledge_base_docs d ON c.doc_id = d.doc_id`,
in content-row order. -/
structure JoinedRow where
  doc_id : Nat
  title : String
  page_num : Nat
  content : List Char
deriving Repr, DecidableEq

/-- The join used by `search_in_knowledge_base`: each content row paired with
its document (content rows whose document is missing do not join). -/
def joinRows (kb : KB) : List JoinedRow :=
  kb.contents.filterMap (fun c =>
    (kb.docs.find? (fun d => d.doc_id == c.doc_id)).map (fun d =>
      { doc_id := d.doc_id, title := d.title, page_num := c.page_num,
        content := c.content }))

/-- A search result as assembled by `search_in_knowledge_base`
(`{'doc_id': ..., 'title': ..., 'page_num': ..., 'snippet': ...}`; the snippet
field, which no claim refers to, is elided). -/
structure SearchHit where
  doc_id : Nat
  title : String
  page_num : Nat
deriving Repr, DecidableEq

/-- The SQL `LIKE` pattern built by `search_in_knowledge_base` for one term:
`f"%{term}%"` — no escaping, so `%`/`_` inside the term stay wildcards. -/
def termPattern (t : List Char) : List Char := '%' :: (t ++ ['%'])

/-- `search_in_knowledge_base(query, limit)` (`kb_manager.py`):
`search_terms = query.lower().split()`; empty term list returns `[]`;
otherwise `SELECT d.doc_id, d.title, c.page_num, c.content FROM
knowledge_base_content c JOIN knowledge_base_docs d ... WHERE
LOWER(c.content) LIKE '%t1%' AND ... LIMIT ?`. -/
def search_in_knowledge_base (kb : KB) (query : List Char) (lim : Nat) :
    List SearchHit :=
  let terms := pySplit (lowerL query)
  if terms.isEmpty then []
  else
    let matched := (joinRows kb).filter (fun r =>
      terms.all (fun t => likeMatch (termPattern t) (lowerL r.content)))
    (matched.take lim).map (fun r =>
      { doc_id := r.doc_id, title := r.title, page_num := r.page_num })

/-- `_get_page_content(doc_id, page_num)`: `SELECT content FROM
knowledge_base_content WHERE doc_id = ? AND page_num = ?`, first row or
`None`.  (The Python guard `if result and result[0]` is true for any returned
row since `result[0]` is a nonempty tuple, so an empty string is returned
as-is.) -/
def get_page_content (kb : KB) (docId pageNum : Nat) : Option (List Char) :=
  match kb.contents.find? (fun c => c.doc_id == docId && c.page_num == pageNum) with
  | some c => some c.content
  | none => none

/-- The `f"Документ: {title} (Страница {page_num})\n\n"` header prepended to
each page's content in `get_content_for_query`. -/
def docHeader (title : String) (p : Nat) : List Char :=
  ("Документ: " ++ title ++ " (Страница " ++ Nat.repr p ++ ")\n\n").data

/-- `get_content_for_query(query)` (`kb_manager.py`): runs the search with
`limit=5`; returns `None` on no hits; otherwise re-fetches each hit's full page
content, keeps the truthy (non-empty) ones with a header, and returns
`"\n\n".join(relevant_content)` — which is the empty string when every hit's
page content is empty or missing. -/
def get_content_for_query (kb : KB) (query : List Char) : Option (List Char) :=
  let hits := search_in_knowledge_base kb query 5
  if hits.isEmpty then none
  else
    let rel := hits.filterMap (fun h =>
      match get_page_content kb h.doc_id h.page_num with
      | some pc => if pc.isEmpty then none else some (docHeader h.title h.page_num ++ pc)
      | none => none)
    some (List.intercalate ('\n' :: '\n' :: []) rel)

/-- The inputs of `add_document_to_knowledge_base` that come from the
filesystem and the PDF extractor: whether the file exists, has the `.pdf`
extension, its size, whether the copy-to-storage step succeeded, and the
`(pages_text, num_pages)` result of `_extract_text_from_pdf`, where
`num_pages = pages.length` (the extractor fills one entry per page and returns
`({}, 0)` on any extraction error). -/
structure FileInfo where
  found : Bool
  isPdf : Bool
  size : Nat
  copyOk : Bool
  pages : List (Nat × List Char)
deriving Repr, DecidableEq

/-- SQLite AUTOINCREMENT for `knowledge_base_docs.doc_id`. -/
def nextDocId (kb : KB) : Nat := (kb.docs.foldl (fun m d => max m d.doc_id) 0) + 1

/-- SQLite AUTOINCREMENT for `knowledge_base_content.content_id`. -/
def nextContentId (kb : KB) : Nat :=
  (kb.contents.foldl (fun m c => max m c.content_id) 0) + 1

/-- `add_document_to_knowledge_base(file_path, title)` (`kb_manager.py`).
`oracle` models `execute_query`'s fallibility (`db_manager.py` returns `None`
and leaves the statement unexecuted when SQLite raises): entry `0` is the
document INSERT, entry `1` the doc-id SELECT, entries `2+i` the per-page
content INSERTs (whose results the Python code ignores); a missing entry means
success.  Validation failures return `{'success': False}` before any write;
a filename already present violates the UNIQUE constraint so the INSERT fails;
after a successful INSERT, a failed doc-id SELECT returns failure with the
document row already committed (autocommit connection). -/
def add_document_to_knowledge_base (kb : KB) (f : FileInfo)
    (filename title : String) (now : Nat) (oracle : List Bool) : KB × Bool :=
  if !f.found then (kb, false)
  else if !f.isPdf then (kb, false)
  else if f.size == 0 then (kb, false)
  else if !f.copyOk then (kb, false)
  else if f.pages.length == 0 then (kb, false)
  else if oracle.getD 0 true == false then (kb, false)
  else if kb.docs.any (fun d => d.filename == filename) then (kb, false)
  else
    let newId := nextDocId kb
    let kb1 : KB := { kb with docs := kb.docs ++
        [{ doc_id := newId, filename := filename, title := title,
           upload_date := now, file_path := filename,
           num_pages := f.pages.length, admin_id := 0 }] }
    if oracle.getD 1 true == false then (kb1, false)
    else
      let kb2 := f.pages.enum.foldl (fun (acc : KB) p =>
        if oracle.getD (2 + p.1) true then
          { acc with contents := acc.contents ++
              [{ content_id := nextContentId acc, doc_id := newId,
                 page_num := p.2.1, content := p.2.2 }] }
        else acc) kb1
      (kb2, true)

/-! ### Helper lemmas about `users`-table lookups -/

/-- Pointwise row update commutes with lookup. -/
lemma find?_map_ite (us : List UserRow) (uid : Nat) (g : UserRow → UserRow)
    (hg : ∀ v, (g v).user_id = v.user_id) :
    (us.map (fun v => if v.user_id == uid then g v else v)).find?
        (fun u => u.user_id == uid)
      = (us.find? (fun u => u.user_id == uid)).map g := by
  induction us with
  | nil => simp
  | cons u us ih =>
    by_cases h : u.user_id = uid
    · have hb : (u.user_id == uid) = true := by simp [h]
      have hgb : ((g u).user_id == uid) = true := by simp [hg u, h]
      rw [List.map_cons, if_pos hb]
      simp only [List.find?_cons, hb, hgb]
      rfl
    · have hb : (u.user_id == uid) = false := by simp [h]
      rw [List.map_cons, if_neg (by simp [h])]
      simp only [List.find?_cons, hb]
      exact ih

/-- Lookup after deleting every row with the key and appending a fresh row. -/
lemma find?_filter_append (us : List UserRow) (uid : Nat) (v : UserRow)
    (hv : v.user_id = uid) :
    (us.filter (fun u => u.user_id != uid) ++ [v]).find? (fun u => u.user_id == uid)
      = some v := by
  induction us with
  | nil => simp [List.find?, hv]
  | cons u us ih =>
    by_cases h : u.user_id = uid
    · rw [List.filter_cons, if_neg (show ¬ (u.user_id != uid) = true by simp [h])]
      exact ih
    · have hb : (u.user_id == uid) = false := by simp [h]
      rw [List.filter_cons, if_pos (show (u.user_id != uid) = true by simp [h]),
        List.cons_append]
      simp only [List.find?_cons, hb]
      exact ih

/-- Lookup after appending a fresh row to a list that does not contain the key. -/
lemma find?_append_new (us : List UserRow) (uid : Nat) (v : UserRow)
    (hnone : us.find? (fun u => u.user_id == uid) = none) (hv : v.user_id = uid) :
    (us ++ [v]).find? (fun u => u.user_id == uid) = some v := by
  induction us with
  | nil => simp [List.find?, hv]
  | cons u us ih =>
    have hb : (u.user_id == uid) = false := by
      by_contra hc
      simp only [List.find?, Bool.not_eq_false] at hnone hc
      rw [hc] at hnone
      simp at hnone
    simp only [List.find?, hb] at hnone ⊢
    exact ih hnone

/-- `update_user_activity` (sync) leaves exactly the default row behind. -/
lemma findUser_update_user_activity (db : DB) (uid now : Nat) :
    findUser (update_user_activity db uid now) uid
      = some { user_id := uid, subscription_status := "free", messages_count := some 0,
               message_limit := none, last_activity := now, subscription_expiry := none } := by
  unfold findUser update_user_activity
  exact find?_filter_append _ _ _ rfl

/-- `increment_message_count` on an absent row inserts the count-1 row. -/
lemma findUser_increment_absent (db : DB) (uid now : Nat)
    (h : findUser db uid = none) :
    findUser (increment_message_count db uid now).1 uid
      = some { user_id := uid, subscription_status := "free", messages_count := some 1,
               message_limit := none, last_activity := now, subscription_expiry := none } := by
  unfold increment_message_count
  rw [h]
  unfold findUser at h ⊢
  exact find?_append_new _ _ _ h rfl

/-- `increment_message_count` on a present row bumps its counter. -/
lemma findUser_increment_present (db : DB) (uid now : Nat) (u : UserRow)
    (h : findUser db uid = some u) :
    findUser (increment_message_count db uid now).1 uid
      = some { u with messages_count := u.messages_count.map (· + 1),
                      last_activity := now } := by
  have h' : List.find? (fun w => w.user_id == uid) db.users = some u := h
  unfold increment_message_count
  rw [h]
  unfold findUser
  dsimp only
  rw [find?_map_ite db.users uid
      (fun w => { w with messages_count := w.messages_count.map (· + 1),
                         last_activity := now })
      (fun v => rfl), h']
  rfl

/-- `increment_message_count` never touches the chat history. -/
lemma increment_chat_history (db : DB) (uid now : Nat) :
    (increment_message_count db uid now).1.chat_history = db.chat_history := by
  unfold increment_message_count
  cases h : findUser db uid <;> rfl

/-- The row is not an expired premium subscription at time `now`, i.e.
`check_subscription_expiry` leaves it alone. -/
def expiryKeeps (u : UserRow) (now : Nat) : Prop :=
  ∀ e, u.subscription_expiry = some e → u.subscription_status = "premium" → now ≤ e

/-- The limit `AsyncDBManager.get_message_limit` reads off a stable row:
the non-NULL override if any, else the tier limit with fallback 50. -/
def userLimit (u : UserRow) : Int :=
  match u.message_limit with
  | some l => l
  | none => (SUBSCRIPTION_LIMITS u.subscription_status).getD 50

/-- `check_subscription_expiry` is a no-op when the user row is absent. -/
lemma check_expiry_absent (db : DB) (uid now : Nat) (h : findUser db uid = none) :
    check_subscription_expiry db uid now = db := by
  unfold check_subscription_expiry
  rw [h]

/-- `check_subscription_expiry` is a no-op on a non-expired row. -/
lemma check_expiry_noop (db : DB) (uid now : Nat) (u : UserRow)
    (h : findUser db uid = some u) (hk : expiryKeeps u now) :
    check_subscription_expiry db uid now = db := by
  unfold check_subscription_expiry
  rw [h]
  dsimp only
  by_cases hs : u.subscription_status = "premium"
  · rw [if_neg (by simp [hs])]
    cases he : u.subscription_expiry with
    | none => rfl
    | some e =>
        have := hk e he hs
        dsimp only
        rw [if_neg (by omega)]
  · rw [if_pos hs]

/-- `check_subscription_expiry` on an expired premium row downgrades it. -/
lemma findUser_check_expiry_downgrade (db : DB) (uid now : Nat) (u : UserRow) (e : Nat)
    (h : findUser db uid = some u) (hs : u.subscription_status = "premium")
    (he : u.subscription_expiry = some e) (hp : now > e) :
    check_subscription_expiry db uid now
      = { db with users := db.users.map (fun v =>
            if v.user_id == uid then
              { v with subscription_status := "free", message_limit := none }
            else v) } := by
  unfold check_subscription_expiry
  rw [h]
  dsimp only
  rw [if_neg (by simp [hs]), he]
  dsimp only
  rw [if_pos hp]

/-- `get_subscription_status` on a stable present row returns its status and
changes nothing. -/
lemma get_status_noop (db : DB) (uid now : Nat) (u : UserRow)
    (h : findUser db uid = some u) (hk : expiryKeeps u now) :
    get_subscription_status db uid now = (db, u.subscription_status) := by
  unfold get_subscription_status
  rw [check_expiry_noop db uid now u h hk]
  dsimp only
  rw [h]

/-- `get_subscription_status` for an unknown user returns `"free"` and changes
nothing. -/
lemma get_status_absent (db : DB) (uid now : Nat) (h : findUser db uid = none) :
    get_subscription_status db uid now = (db, "free") := by
  unfold get_subscription_status
  rw [check_expiry_absent db uid now h]
  dsimp only
  rw [h]

/-- `get_user_message_count` on a row with a stored counter just returns it. -/
lemma get_count_present (db : DB) (uid now : Nat) (u : UserRow) (c : Nat)
    (h : findUser db uid = some u) (hc : u.messages_count = some c) :
    get_user_message_count db uid now = (db, c) := by
  unfold get_user_message_count
  rw [h]
  dsimp only
  rw [hc]

/-- `get_user_message_count` for an unknown user with no chat history returns 0
and backfills a fresh `'free'` row with counter 0. -/
lemma get_count_absent (db : DB) (uid now : Nat)
    (h : findUser db uid = none)
    (hch : ∀ r ∈ db.chat_history, r.user_id ≠ uid) :
    get_user_message_count db uid now
      = ({ users := db.users.filter (fun u => u.user_id != uid) ++
            [{ user_id := uid, subscription_status := "free", messages_count := some 0,
               message_limit := none, last_activity := now, subscription_expiry := none }],
           chat_history := db.chat_history }, 0) := by
  have hfil : db.chat_history.filter (fun r => r.user_id == uid) = [] := by
    rw [List.filter_eq_nil_iff]
    intro r hr
    simp [hch r hr]
  unfold get_user_message_count
  rw [h]
  dsimp only
  rw [hfil]
  rfl

/-- `AsyncDBManager.update_user_activity` on a present row only touches
`last_activity`. -/
lemma findUser_async_activity_present (db : DB) (uid now : Nat) (u : UserRow)
    (h : findUser db uid = some u) :
    findUser (async_update_user_activity db uid now) uid
      = some { u with last_activity := now } := by
  have h' : List.find? (fun w => w.user_id == uid) db.users = some u := h
  unfold async_update_user_activity
  rw [h]
  unfold findUser
  dsimp only
  rw [find?_map_ite db.users uid (fun w => { w with last_activity := now })
      (fun v => rfl), h']
  rfl

/-- `async_update_user_activity` never touches the chat history. -/
lemma async_activity_chat_history (db : DB) (uid now : Nat) :
    (async_update_user_activity db uid now).chat_history = db.chat_history := by
  unfold async_update_user_activity
  cases h : findUser db uid <;> rfl

/-- `save_chat_message` never touches the users table. -/
lemma findUser_save_chat (db : DB) (uid uid2 : Nat) (msg : String)
    (resp : Option String) (now : Nat) :
    findUser (save_chat_message db uid2 msg resp now) uid = findUser db uid := rfl

/-- `AsyncDBManager.get_message_limit` on a stable present row returns
`userLimit` and changes nothing. -/
lemma async_get_limit_present (db : DB) (uid now : Nat) (u : UserRow)
    (h : findUser db uid = some u) (hk : expiryKeeps u now) :
    async_get_message_limit db uid now = (db, userLimit u) := by
  unfold async_get_message_limit userLimit
  rw [h, get_status_noop db uid now u h hk]
  dsimp only
  cases hm : u.message_limit <;> rfl

/-- `increment_message_count` applied once per timestamp in `ts`. -/
def applyIncrements (db : DB) (uid : Nat) (ts : List Nat) : DB :=
  ts.foldl (fun d t => (increment_message_count d uid t).1) db

/-- Iterated increments add the number of applications to a stored counter. -/
lemma applyIncrements_present (uid : Nat) (ts : List Nat) :
    ∀ db u c, findUser db uid = some u → u.messages_count = some c →
      ∃ u', findUser (applyIncrements db uid ts) uid = some u' ∧
            u'.messages_count = some (c + ts.length) := by
  induction ts with
  | nil => intro db u c h hc; exact ⟨u, h, by simpa using hc⟩
  | cons t ts ih =>
    intro db u c h hc
    have hstep := findUser_increment_present db uid t u h
    obtain ⟨u', hu', hcnt⟩ := ih _ _ (c + 1) hstep (by simp [hc])
    exact ⟨u', hu', by rw [hcnt]; congr 1; simp [Nat.add_assoc, Nat.add_comm 1]⟩

/-! ### Claim theorems for the quota layer -/

/-- C1: for a fresh user (no `users` row, no `chat_history` rows), applying
`increment_message_count` once per timestamp of `ts` makes
`get_user_message_count` return `ts.length`; the first application creates the
row with `messages_count = 1` (status `'free'`), and on any row with a stored
counter a further application increments that counter by exactly 1. -/
theorem increment_n_times_yields_n (db : DB) (uid : Nat) (ts : List Nat) (now t1 : Nat)
    (hu : findUser db uid = none)
    (hch : ∀ r ∈ db.chat_history, r.user_id ≠ uid) :
    (get_user_message_count (applyIncrements db uid ts) uid now).2 = ts.length ∧
    findUser (increment_message_count db uid t1).1 uid
      = some { user_id := uid, subscription_status := "free", messages_count := some 1,
               message_limit := none, last_activity := t1, subscription_expiry := none } ∧
    (∀ db2 u c t2, findUser db2 uid = some u → u.messages_count = some c →
      ∃ u', findUser (increment_message_count db2 uid t2).1 uid = some u' ∧
            u'.messages_count = some (c + 1)) := by
  refine ⟨?_, findUser_increment_absent db uid t1 hu, ?_⟩
  · cases ts with
    | nil =>
        have := get_count_absent db uid now hu hch
        simp only [applyIncrements, List.foldl_nil, this]
        rfl
    | cons t ts =>
        have h1 := findUser_increment_absent db uid t hu
        have : applyIncrements db uid (t :: ts)
            = applyIncrements (increment_message_count db uid t).1 uid ts := rfl
        rw [this]
        obtain ⟨u', hu', hcnt⟩ :=
          applyIncrements_present uid ts (increment_message_count db uid t).1 _ 1 h1 rfl
        rw [get_count_present _ uid now u' (1 + ts.length) hu' hcnt]
        simp [Nat.add_comm]
  · intro db2 u c t2 h hc
    refine ⟨_, findUser_increment_present db2 uid t2 u h, ?_⟩
    simp [hc]

/-- C1 witness: a fresh user incremented 3 times reads back count 3, the first
increment creates the count-1 row, and increments bump a stored counter by 1. -/
theorem increment_n_times_yields_n_witness :
    (get_user_message_count
        (applyIncrements { users := [], chat_history := [] } 7 [10, 11, 12]) 7 13).2 = 3 ∧
    findUser (increment_message_count { users := [], chat_history := [] } 7 10).1 7
      = some { user_id := 7, subscription_status := "free", messages_count := some 1,
               message_limit := none, last_activity := 10, subscription_expiry := none } ∧
    (∀ db2 u c t2, findUser db2 7 = some u → u.messages_count = some c →
      ∃ u', findUser (increment_message_count db2 7 t2).1 7 = some u' ∧
            u'.messages_count = some (c + 1)) :=
  increment_n_times_yields_n { users := [], chat_history := [] } 7 [10, 11, 12] 13 10
    rfl (by intro r hr; simp at hr)

/-- C3: on a stored premium row whose expiry lies strictly in the past,
`get_subscription_status` downgrades the row to `'free'`, clears the
`message_limit` override, and returns `'free'`; a second consecutive call
(at any later-or-equal clock reading) changes nothing and returns `'free'`. -/
theorem expired_premium_downgrade_idempotent (db : DB) (uid now now2 : Nat)
    (u : UserRow) (e : Nat)
    (hu : findUser db uid = some u)
    (hs : u.subscription_status = "premium")
    (he : u.subscription_expiry = some e)
    (hp : now > e) :
    (get_subscription_status db uid now).2 = "free" ∧
    findUser (get_subscription_status db uid now).1 uid
      = some { u with subscription_status := "free", message_limit := none } ∧
    get_subscription_status (get_subscription_status db uid now).1 uid now2
      = ((get_subscription_status db uid now).1, "free") := by
  have h' : List.find? (fun w => w.user_id == uid) db.users = some u := hu
  have hdown := findUser_check_expiry_downgrade db uid now u e hu hs he hp
  have hfind : findUser (check_subscription_expiry db uid now) uid
      = some { u with subscription_status := "free", message_limit := none } := by
    rw [hdown]
    unfold findUser
    dsimp only
    rw [find?_map_ite db.users uid
        (fun w => { w with subscription_status := "free", message_limit := none })
        (fun v => rfl), h']
    rfl
  have hstat : get_subscription_status db uid now
      = (check_subscription_expiry db uid now,
         "free") := by
    unfold get_subscription_status
    dsimp only
    simp only [hfind]
  refine ⟨by rw [hstat], by rw [hstat]; exact hfind, ?_⟩
  rw [hstat]
  exact get_status_noop _ uid now2 _ hfind (by intro e2 he2 hs2; simp at hs2)

/-- C3 witness: a premium user whose expiry 5 passed at time 6 is downgraded to
`'free'` with the override cleared, idempotently. -/
theorem expired_premium_downgrade_idempotent_witness :
    (get_subscription_status
        { users := [{ user_id := 7, subscription_status := "premium",
                      messages_count := some 2, message_limit := some 9,
                      last_activity := 0, subscription_expiry := some 5 }],
          chat_history := [] } 7 6).2 = "free" ∧
    findUser (get_subscription_status
        { users := [{ user_id := 7, subscription_status := "premium",
                      messages_count := some 2, message_limit := some 9,
                      last_activity := 0, subscription_expiry := some 5 }],
          chat_history := [] } 7 6).1 7
      = some { user_id := 7, subscription_status := "free", messages_count := some 2,
               message_limit := none, last_activity := 0, subscription_expiry := some 5 } ∧
    get_subscription_status (get_subscription_status
        { users := [{ user_id := 7, subscription_status := "premium",
                      messages_count := some 2, message_limit := some 9,
                      last_activity := 0, subscription_expiry := some 5 }],
          chat_history := [] } 7 6).1 7 7
      = ((get_subscription_status
          { users := [{ user_id := 7, subscription_status := "premium",
                        messages_count := some 2, message_limit := some 9,
                        last_activity := 0, subscription_expiry := some 5 }],
            chat_history := [] } 7 6).1, "free") :=
  expired_premium_downgrade_idempotent
    { users := [{ user_id := 7, subscription_status := "premium",
                  messages_count := some 2, message_limit := some 9,
                  last_activity := 0, subscription_expiry := some 5 }],
      chat_history := [] } 7 6 7
    { user_id := 7, subscription_status := "premium", messages_count := some 2,
      message_limit := some 9, last_activity := 0, subscription_expiry := some 5 }
    5 rfl rfl rfl (by omega)

/-- C6: a never-seen user (no `users` row, no `chat_history` rows) reads
message count 0 — backfilling a `'free'` row with counter 0 — and subscription
status `'free'`. -/
theorem fresh_user_defaults (db : DB) (uid now : Nat)
    (hu : findUser db uid = none)
    (hch : ∀ r ∈ db.chat_history, r.user_id ≠ uid) :
    (get_user_message_count db uid now).2 = 0 ∧
    findUser (get_user_message_count db uid now).1 uid
      = some { user_id := uid, subscription_status := "free", messages_count := some 0,
               message_limit := none, last_activity := now, subscription_expiry := none } ∧
    (get_subscription_status db uid now).2 = "free" := by
  have hc := get_count_absent db uid now hu hch
  refine ⟨by rw [hc], ?_, by rw [get_status_absent db uid now hu]⟩
  rw [hc]
  exact find?_filter_append _ _ _ rfl

/-- C6 witness: user 3 is unknown to a one-user database. -/
theorem fresh_user_defaults_witness :
    (get_user_message_count
        { users := [{ user_id := 7, subscription_status := "premium",
                      messages_count := some 2, message_limit := none,
                      last_activity := 0, subscription_expiry := none }],
          chat_history := [⟨7, "hi", none, 1⟩] } 3 9).2 = 0 ∧
    findUser (get_user_message_count
        { users := [{ user_id := 7, subscription_status := "premium",
                      messages_count := some 2, message_limit := none,
                      last_activity := 0, subscription_expiry := none }],
          chat_history := [⟨7, "hi", none, 1⟩] } 3 9).1 3
      = some { user_id := 3, subscription_status := "free", messages_count := some 0,
               message_limit := none, last_activity := 9, subscription_expiry := none } ∧
    (get_subscription_status
        { users := [{ user_id := 7, subscription_status := "premium",
                      messages_count := some 2, message_limit := none,
                      last_activity := 0, subscription_expiry := none }],
          chat_history := [⟨7, "hi", none, 1⟩] } 3 9).2 = "free" :=
  fresh_user_defaults _ 3 9 rfl (by intro r hr; simp at hr; simp [hr])

/-- C9 counterexample: a per-user `message_limit` override of 0 is stored, yet
`DBManager.get_message_limit` returns the `'free'` tier limit 5 rather than the
override — the Python truthiness guard `if result and result[0] and
result[0][0]:` treats 0 like NULL. -/
theorem get_message_limit_zero_override_ignored :
    (findUser
        { users := [{ user_id := 7, subscription_status := "free",
                      messages_count := some 0, message_limit := some 0,
                      last_activity := 0, subscription_expiry := none }],
          chat_history := [] } 7).map (fun u => u.message_limit)
      = some (some 0) ∧
    (get_message_limit
        { users := [{ user_id := 7, subscription_status := "free",
                      messages_count := some 0, message_limit := some 0,
                      last_activity := 0, subscription_expiry := none }],
          chat_history := [] } 7 0).2 = 5 :=
  ⟨rfl, rfl⟩

/-- C9 (amended): `DBManager.get_message_limit` returns the per-user override
whenever one is set *and nonzero*; when the override is NULL or 0 it returns
the tier limit of the user's current status (`'free'` ↦ 5, `'premium'` ↦ 500,
any other tier ↦ the fallback 50). -/
theorem get_message_limit_override_or_tier (db : DB) (uid now : Nat) (u : UserRow)
    (hu : findUser db uid = some u) (hk : expiryKeeps u now) :
    (∀ l, u.message_limit = some l → l ≠ 0 → get_message_limit db uid now = (db, l)) ∧
    ((u.message_limit = none ∨ u.message_limit = some 0) →
      get_message_limit db uid now
        = (db, if u.subscription_status = "free" then 5
               else if u.subscription_status = "premium" then 500 else 50)) := by
  have htier : (let r := get_subscription_status db uid now
      ((r.1, (SUBSCRIPTION_LIMITS r.2).getD 50) : DB × Int))
      = (db, if u.subscription_status = "free" then 5
             else if u.subscription_status = "premium" then 500 else 50) := by
    rw [get_status_noop db uid now u hu hk]
    dsimp only
    unfold SUBSCRIPTION_LIMITS
    by_cases h1 : u.subscription_status = "free"
    · simp [h1]
    · by_cases h2 : u.subscription_status = "premium" <;> simp [h1, h2]
  constructor
  · intro l hl hnz
    unfold get_message_limit
    rw [hu]
    dsimp only
    rw [hl]
    dsimp only
    rw [if_pos hnz]
  · intro hcase
    unfold get_message_limit
    rw [hu]
    dsimp only
    cases hcase with
    | inl hnone => rw [hnone]; exact htier
    | inr hzero =>
        rw [hzero]
        dsimp only
        rw [if_neg (by simp)]
        exact htier

/-- C9 amended witness: override 7 is returned as-is; override 0 falls back to
the premium tier limit 500. -/
theorem get_message_limit_override_or_tier_witness :
    (∀ l, (some (7 : Int) : Option Int) = some l → l ≠ 0 →
      get_message_limit
        { users := [{ user_id := 4, subscription_status := "premium",
                      messages_count := some 0, message_limit := some 7,
                      last_activity := 0, subscription_expiry := none }],
          chat_history := [] } 4 0
        = ({ users := [{ user_id := 4, subscription_status := "premium",
                         messages_count := some 0, message_limit := some 7,
                         last_activity := 0, subscription_expiry := none }],
             chat_history := [] }, l)) ∧
    (((some (7 : Int) : Option Int) = none ∨ (some (7 : Int) : Option Int) = some 0) →
      get_message_limit
        { users := [{ user_id := 4, subscription_status := "premium",
                      messages_count := some 0, message_limit := some 7,
                      last_activity := 0, subscription_expiry := none }],
          chat_history := [] } 4 0
        = ({ users := [{ user_id := 4, subscription_status := "premium",
                         messages_count := some 0, message_limit := some 7,
                         last_activity := 0, subscription_expiry := none }],
             chat_history := [] },
           if ("premium" : String) = "free" then 5
           else if ("premium" : String) = "premium" then 500 else 50)) :=
  get_message_limit_override_or_tier
    { users := [{ user_id := 4, subscription_status := "premium",
                  messages_count := some 0, message_limit := some 7,
                  last_activity := 0, subscription_expiry := none }],
      chat_history := [] } 4 0
    { user_id := 4, subscription_status := "premium", messages_count := some 0,
      message_limit := some 7, last_activity := 0, subscription_expiry := none }
    rfl (by intro e he hs; simp at he)

/-- C10: `DBManager.update_user_activity` uses `INSERT OR REPLACE` supplying
only `user_id` and `last_activity`, so for a user already present it replaces
the whole row: `messages_count` becomes 0, `subscription_status` `'free'`,
`message_limit` NULL and `subscription_expiry` NULL. -/
theorem update_user_activity_replaces_row (db : DB) (uid now : Nat) (u : UserRow)
    (_hu : findUser db uid = some u) :
    findUser (update_user_activity db uid now) uid
      = some { user_id := uid, subscription_status := "free", messages_count := some 0,
               message_limit := none, last_activity := now, subscription_expiry := none } :=
  findUser_update_user_activity db uid now

/-- C10 witness: a premium user with count 42, an override and an expiry is
reset to the default row by `update_user_activity`. -/
theorem update_user_activity_replaces_row_witness :
    findUser (update_user_activity
        { users := [{ user_id := 7, subscription_status := "premium",
                      messages_count := some 42, message_limit := some 9,
                      last_activity := 1, subscription_expiry := some 99 }],
          chat_history := [] } 7 5) 7
      = some { user_id := 7, subscription_status := "free", messages_count := some 0,
               message_limit := none, last_activity := 5, subscription_expiry := none } :=
  update_user_activity_replaces_row
    { users := [{ user_id := 7, subscription_status := "premium",
                  messages_count := some 42, message_limit := some 9,
                  last_activity := 1, subscription_expiry := some 99 }],
      chat_history := [] } 7 5
    { user_id := 7, subscription_status := "premium", messages_count := some 42,
      message_limit := some 9, last_activity := 1, subscription_expiry := some 99 }
    rfl

/-- Symbolic run of `handle_message` on a present, stable row with stored
counter `c`: the outcome is decided by comparing `c + 1` (the post-increment
count) against the user's limit, and the stored counter afterwards is `c+1`. -/
lemma handle_message_run (db : DB) (uid now : Nat) (msg : String)
    (u : UserRow) (c : Nat)
    (hu : findUser db uid = some u) (hc : u.messages_count = some c)
    (hk : expiryKeeps u now) :
    (handle_message db uid msg now).2
      = (if (((c + 1 : Nat) : Int) > userLimit u) then .rejected else .processed) ∧
    findUser (handle_message db uid msg now).1 uid
      = some { u with messages_count := some (c + 1), last_activity := now } := by
  have h2 : findUser
      (save_chat_message (async_update_user_activity db uid now) uid msg none now) uid
      = some { u with last_activity := now } :=
    findUser_async_activity_present db uid now u hu
  have h3 : get_user_message_count
      (save_chat_message (async_update_user_activity db uid now) uid msg none now) uid now
      = (save_chat_message (async_update_user_activity db uid now) uid msg none now, c) :=
    get_count_present _ uid now _ c h2 (by simp [hc])
  have h4 : findUser (increment_message_count
      (save_chat_message (async_update_user_activity db uid now) uid msg none now)
      uid now).1 uid
      = some { u with messages_count := some (c + 1), last_activity := now } := by
    rw [findUser_increment_present _ uid now _ h2]
    simp [hc]
  have hk4 : expiryKeeps
      ({ u with messages_count := some (c + 1), last_activity := now } : UserRow) now :=
    fun e he hs => hk e he hs
  have h5 : get_subscription_status (increment_message_count
      (save_chat_message (async_update_user_activity db uid now) uid msg none now)
      uid now).1 uid now
      = ((increment_message_count
          (save_chat_message (async_update_user_activity db uid now) uid msg none now)
          uid now).1, u.subscription_status) :=
    get_status_noop _ uid now
      { u with messages_count := some (c + 1), last_activity := now } h4 hk4
  have h6 : get_user_message_count (increment_message_count
      (save_chat_message (async_update_user_activity db uid now) uid msg none now)
      uid now).1 uid now
      = ((increment_message_count
          (save_chat_message (async_update_user_activity db uid now) uid msg none now)
          uid now).1, c + 1) :=
    get_count_present _ uid now
      { u with messages_count := some (c + 1), last_activity := now } (c + 1) h4 rfl
  have h7 : async_get_message_limit (increment_message_count
      (save_chat_message (async_update_user_activity db uid now) uid msg none now)
      uid now).1 uid now
      = ((increment_message_count
          (save_chat_message (async_update_user_activity db uid now) uid msg none now)
          uid now).1, userLimit u) :=
    async_get_limit_present _ uid now
      { u with messages_count := some (c + 1), last_activity := now } h4 hk4
  have hrun : handle_message db uid msg now
      = (if (((c + 1 : Nat) : Int) > userLimit u)
         then ((increment_message_count
            (save_chat_message (async_update_user_activity db uid now) uid msg none now)
            uid now).1, .rejected)
         else ((increment_message_count
            (save_chat_message (async_update_user_activity db uid now) uid msg none now)
            uid now).1, .processed)) := by
    unfold handle_message
    dsimp only
    rw [h3]
    dsimp only
    rw [h5]
    dsimp only
    rw [h6]
    dsimp only
    rw [h7]
  constructor
  · rw [hrun]
    by_cases hcond : (((c + 1 : Nat) : Int) > userLimit u)
    · simp only [if_pos hcond]
    · simp only [if_neg hcond]
  · rw [hrun]
    by_cases hcond : (((c + 1 : Nat) : Int) > userLimit u)
    · rw [if_pos hcond]; exact h4
    · rw [if_neg hcond]; exact h4

/-- C2: `handle_message` enforces the quota increment-then-check: the counter
is incremented before the limit comparison, the message is rejected exactly
when the post-increment count strictly exceeds the limit, so the message that
makes the count reach the limit is itself processed and only the next send
attempt is rejected. -/
theorem handle_message_increment_then_check (db : DB) (uid now : Nat) (msg : String)
    (u : UserRow) (c : Nat)
    (hu : findUser db uid = some u) (hc : u.messages_count = some c)
    (hk : expiryKeeps u now) :
    ((handle_message db uid msg now).2 = .rejected ↔ (c : Int) + 1 > userLimit u) ∧
    findUser (handle_message db uid msg now).1 uid
      = some { u with messages_count := some (c + 1), last_activity := now } ∧
    ((c : Int) + 1 = userLimit u →
      (handle_message db uid msg now).2 = .processed ∧
      ∀ msg2 now2, expiryKeeps u now2 →
        (handle_message (handle_message db uid msg now).1 uid msg2 now2).2
          = .rejected) := by
  obtain ⟨hout, hstate⟩ := handle_message_run db uid now msg u c hu hc hk
  have hcast : (((c + 1 : Nat) : Int)) = (c : Int) + 1 := by push_cast; ring
  refine ⟨?_, hstate, ?_⟩
  · rw [hout, hcast]
    by_cases hcond : ((c : Int) + 1 > userLimit u) <;> simp [hcond]
  · intro heq
    have hnot : ¬ (((c + 1 : Nat) : Int) > userLimit u) := by rw [hcast]; omega
    refine ⟨by rw [hout, if_neg hnot], ?_⟩
    intro msg2 now2 hk2
    have hk2' : expiryKeeps
        ({ u with messages_count := some (c + 1), last_activity := now } : UserRow) now2 :=
      fun e he hs => hk2 e he hs
    obtain ⟨hout2, _⟩ := handle_message_run (handle_message db uid msg now).1 uid now2 msg2
      _ (c + 1) hstate rfl hk2'
    rw [hout2]
    have hlim : userLimit
        ({ u with messages_count := some (c + 1), last_activity := now } : UserRow)
      = userLimit u := rfl
    rw [hlim, if_pos (by push_cast; omega)]

/-- C2 witness: a `'free'`-tier user with stored count 4 (limit 5) has the
count-5 message processed and the next one rejected. -/
theorem handle_message_increment_then_check_witness :
    ((handle_message
        { users := [{ user_id := 7, subscription_status := "free",
                      messages_count := some 4, message_limit := none,
                      last_activity := 0, subscription_expiry := none }],
          chat_history := [] } 7 "hi" 1).2 = .rejected
      ↔ ((4 : Nat) : Int) + 1 > userLimit
          { user_id := 7, subscription_status := "free", messages_count := some 4,
            message_limit := none, last_activity := 0, subscription_expiry := none }) ∧
    findUser (handle_message
        { users := [{ user_id := 7, subscription_status := "free",
                      messages_count := some 4, message_limit := none,
                      last_activity := 0, subscription_expiry := none }],
          chat_history := [] } 7 "hi" 1).1 7
      = some { user_id := 7, subscription_status := "free", messages_count := some 5,
               message_limit := none, last_activity := 1, subscription_expiry := none } ∧
    (((4 : Nat) : Int) + 1 = userLimit
        { user_id := 7, subscription_status := "free", messages_count := some 4,
          message_limit := none, last_activity := 0, subscription_expiry := none } →
      (handle_message
        { users := [{ user_id := 7, subscription_status := "free",
                      messages_count := some 4, message_limit := none,
                      last_activity := 0, subscription_expiry := none }],
          chat_history := [] } 7 "hi" 1).2 = .processed ∧
      ∀ msg2 now2, expiryKeeps
          { user_id := 7, subscription_status := "free", messages_count := some 4,
            message_limit := none, last_activity := 0, subscription_expiry := none } now2 →
        (handle_message (handle_message
            { users := [{ user_id := 7, subscription_status := "free",
                          messages_count := some 4, message_limit := none,
                          last_activity := 0, subscription_expiry := none }],
              chat_history := [] } 7 "hi" 1).1 7 msg2 now2).2 = .rejected) :=
  handle_message_increment_then_check
    { users := [{ user_id := 7, subscription_status := "free",
                  messages_count := some 4, message_limit := none,
                  last_activity := 0, subscription_expiry := none }],
      chat_history := [] } 7 1 "hi"
    { user_id := 7, subscription_status := "free", messages_count := some 4,
      message_limit := none, last_activity := 0, subscription_expiry := none }
    4 rfl rfl (by intro e he hs; simp at he)

/-! ### Specification of `split_message` (claim C5) -/

/-- `i` is the index of the last occurrence of `ch` in `l`. -/
def isLastOcc (ch : Char) (l : List Char) (i : Nat) : Prop :=
  ∃ a b, l = a ++ ch :: b ∧ a.length = i ∧ ch ∉ b

/-- The cut of length `k` taken off the front of the remaining text `s` is
placed as the claim describes: at the last newline of the first `m` characters,
else at the last space there, else (neither present) at the window boundary. -/
def goodCut (s : List Char) (m k : Nat) : Prop :=
  (∃ i, isLastOcc '\n' (s.take m) i ∧ k = i + 1) ∨
  ('\n' ∉ s.take m ∧ ∃ i, isLastOcc ' ' (s.take m) i ∧ k = i + 1) ∨
  ('\n' ∉ s.take m ∧ ' ' ∉ s.take m ∧ k = m)

/-- Every adjacent chunk boundary is a good cut of the text remaining there. -/
def chunksGood (m : Nat) : List (List Char) → Prop
  | [] => True
  | [_] => True
  | p :: q :: rest =>
      goodCut (p ++ (q :: rest).join) m p.length ∧ chunksGood m (q :: rest)

lemma chunksGood_cons (m : Nat) (p : List Char) (rest : List (List Char))
    (hg : goodCut (p ++ rest.join) m p.length) (hr : chunksGood m rest) :
    chunksGood m (p :: rest) := by
  cases rest with
  | nil => trivial
  | cons q t => exact ⟨hg, hr⟩

/-- `pyRfind` returning `none` means the character is absent. -/
lemma not_mem_of_pyRfind_none (ch : Char) (l : List Char)
    (h : pyRfind ch l = none) : ch ∉ l := by
  induction l with
  | nil => simp
  | cons c cs ih =>
    simp only [pyRfind] at h
    cases hr : pyRfind ch cs with
    | some j => rw [hr] at h; cases h
    | none =>
      rw [hr] at h
      by_cases he : c = ch
      · rw [if_pos he] at h; cases h
      · rw [if_neg he] at h
        intro hm
        rcases List.mem_cons.mp hm with h1 | h2
        · exact he h1.symm
        · exact ih hr h2

/-- `pyRfind` returning `some i` means `i` is the last occurrence. -/
lemma pyRfind_spec (ch : Char) (l : List Char) (i : Nat)
    (h : pyRfind ch l = some i) : isLastOcc ch l i := by
  induction l generalizing i with
  | nil => simp [pyRfind] at h
  | cons c cs ih =>
    simp only [pyRfind] at h
    cases hr : pyRfind ch cs with
    | some j =>
      rw [hr] at h
      injection h with h
      obtain ⟨a, b, hl, hlen, hnb⟩ := ih j hr
      exact ⟨c :: a, b, by simp [hl], by simp [hlen, ← h], hnb⟩
    | none =>
      rw [hr] at h
      by_cases he : c = ch
      · rw [if_pos he] at h
        injection h with h
        exact ⟨[], cs, by simp [he], by simp [← h], not_mem_of_pyRfind_none ch cs hr⟩
      · rw [if_neg he] at h; cases h

/-- An occurrence index is inside the list. -/
lemma isLastOcc_lt (ch : Char) (l : List Char) (i : Nat)
    (h : isLastOcc ch l i) : i < l.length := by
  obtain ⟨a, b, hl, hlen, _⟩ := h
  rw [hl, List.length_append, List.length_cons]
  omega

/-- One loop step of `split_message`: the cut length is between 1 and `m` and
is a good cut. -/
lemma splitCutoff_good (text : List Char) (m : Nat) (hm : 1 ≤ m)
    (hlen : m < text.length) :
    1 ≤ (splitCutoff text m + 1).toNat ∧ (splitCutoff text m + 1).toNat ≤ m ∧
    goodCut text m (splitCutoff text m + 1).toNat := by
  have hwin : (text.take m).length = m := by
    rw [List.length_take]
    omega
  unfold splitCutoff goodCut
  dsimp only
  cases hn : pyRfind '\n' (text.take m) with
  | some i =>
    dsimp only
    have hocc := pyRfind_spec _ _ _ hn
    have hi : i < m := by
      have := isLastOcc_lt _ _ _ hocc
      omega
    have hk : (((i : Nat) : Int) + 1).toNat = i + 1 := by omega
    rw [hk]
    exact ⟨by omega, by omega, Or.inl ⟨i, hocc, rfl⟩⟩
  | none =>
    dsimp only
    have hnm : '\n' ∉ text.take m := not_mem_of_pyRfind_none _ _ hn
    cases hs : pyRfind ' ' (text.take m) with
    | some i =>
      dsimp only
      have hocc := pyRfind_spec _ _ _ hs
      have hi : i < m := by
        have := isLastOcc_lt _ _ _ hocc
        omega
      have hk : (((i : Nat) : Int) + 1).toNat = i + 1 := by omega
      rw [hk]
      exact ⟨by omega, by omega, Or.inr (Or.inl ⟨hnm, i, hocc, rfl⟩)⟩
    | none =>
      dsimp only
      have hsm : ' ' ∉ text.take m := not_mem_of_pyRfind_none _ _ hs
      have hk : (((m : Nat) : Int) - 1 + 1).toNat = m := by omega
      rw [hk]
      exact ⟨hm, le_refl m, Or.inr (Or.inr ⟨hnm, hsm, rfl⟩)⟩

/-- The cutting loop, given enough fuel and `m ≥ 1`, terminates and returns
chunks that concatenate back to the input, respect the bound, and cut at the
described break points. -/
lemma splitLoop_spec (m : Nat) (hm : 1 ≤ m) :
    ∀ fuel text, List.length text < fuel →
      ∃ parts, splitLoop fuel text m = some parts ∧
        parts.join = text ∧
        (∀ p ∈ parts, p.length ≤ m) ∧
        chunksGood m parts := by
  intro fuel
  induction fuel with
  | zero => intro text h; omega
  | succ fuel ih =>
    intro text hlt
    by_cases h0 : text = []
    · subst h0
      exact ⟨[], by rw [splitLoop, if_pos rfl], by simp, by simp, trivial⟩
    · by_cases h1 : text.length ≤ m
      · refine ⟨[text], ?_, by simp, ?_, trivial⟩
        · rw [splitLoop, if_neg h0, if_pos h1]
        · intro p hp
          rw [List.mem_singleton] at hp
          subst hp
          exact h1
      · push_neg at h1
        obtain ⟨hk1, hk2, hgood⟩ := splitCutoff_good text m hm h1
        have hdrop : (text.drop ((splitCutoff text m + 1).toNat)).length < fuel := by
          rw [List.length_drop]
          omega
        obtain ⟨parts2, hloop, hjoin, hbound, hrest⟩ :=
          ih (text.drop ((splitCutoff text m + 1).toNat)) hdrop
        refine ⟨text.take ((splitCutoff text m + 1).toNat) :: parts2, ?_, ?_, ?_, ?_⟩
        · rw [splitLoop, if_neg h0, if_neg (by omega)]
          dsimp only
          rw [hloop]
        · simp only [List.join_cons, hjoin]
          exact List.take_append_drop _ text
        · intro p hp
          rcases List.mem_cons.mp hp with hp1 | hp2
          · subst hp1
            rw [List.length_take]
            omega
          · exact hbound p hp2
        · apply chunksGood_cons
          · rw [hjoin, List.take_append_drop]
            have hlen : (text.take ((splitCutoff text m + 1).toNat)).length
                = (splitCutoff text m + 1).toNat := by
              rw [List.length_take]
              omega
            rw [hlen]
            exact hgood
          · exact hrest

/-- C5: for every text and every positive `max_length` (the loop does not
terminate for `max_length = 0`), `split_message` returns chunks each of length
at most `max_length`, whose separator-free concatenation reproduces the input
exactly, and every cut is placed at the last newline of the `max_length`-wide
window, else the last space, else — only when neither occurs in the window —
mid-word at the window boundary. -/
theorem split_message_spec (text : List Char) (m : Nat) (hm : 1 ≤ m) :
    ∃ parts, split_message text m = some parts ∧
      parts.join = text ∧
      (∀ p ∈ parts, p.length ≤ m) ∧
      chunksGood m parts := by
  unfold split_message
  by_cases h : text.length ≤ m
  · rw [if_pos h]
    refine ⟨[text], rfl, by simp, ?_, trivial⟩
    intro p hp
    rw [List.mem_singleton] at hp
    subst hp
    exact h
  · rw [if_neg h]
    exact splitLoop_spec m hm (text.length + 1) text (by omega)

/-- C5 witness: splitting `"ab cd ef"` at width 5 satisfies the
specification. -/
theorem split_message_spec_witness :
    1 ≤ 5 ∧
    ∃ parts, split_message ('a' :: 'b' :: ' ' :: 'c' :: 'd' :: ' ' :: 'e' :: 'f' :: []) 5
        = some parts ∧
      parts.join = ('a' :: 'b' :: ' ' :: 'c' :: 'd' :: ' ' :: 'e' :: 'f' :: []) ∧
      (∀ p ∈ parts, p.length ≤ 5) ∧
      chunksGood 5 parts :=
  ⟨by omega,
   split_message_spec ('a' :: 'b' :: ' ' :: 'c' :: 'd' :: ' ' :: 'e' :: 'f' :: []) 5
     (by omega)⟩

/-! ### Specification of the knowledge-base search (claims C7, C8, C4) -/

/-- A leading `%` lets the rest of the pattern start at any suffix. -/
lemma likeMatch_percent_iff (ps : List Char) (s : List Char) :
    likeMatch ('%' :: ps) s = true ↔ ∃ suf, suf <:+ s ∧ likeMatch ps suf = true := by
  have hstep : likeMatch ('%' :: ps) s
      = s.tails.any (fun suf => likeMatch ps suf) := by
    simp [likeMatch]
  rw [hstep, List.any_eq_true]
  constructor
  · rintro ⟨suf, hmem, h⟩
    exact ⟨suf, (List.mem_tails suf s).mp hmem, h⟩
  · rintro ⟨suf, hsuf, h⟩
    exact ⟨suf, (List.mem_tails suf s).mpr hsuf, h⟩

/-- The pattern `%` alone matches everything. -/
lemma likeMatch_percent_all (s : List Char) : likeMatch ['%'] s = true :=
  (likeMatch_percent_iff [] s).mpr ⟨[], List.nil_suffix, rfl⟩

/-- A wildcard-free pattern followed by `%` matches exactly the lists it
prefixes. -/
lemma likeMatch_lit_iff (t : List Char) (h1 : '%' ∉ t) (h2 : '_' ∉ t) :
    ∀ s, likeMatch (t ++ ['%']) s = true ↔ ∃ suf, s = t ++ suf := by
  induction t with
  | nil =>
    intro s
    simp only [List.nil_append]
    exact ⟨fun _ => ⟨s, rfl⟩, fun _ => likeMatch_percent_all s⟩
  | cons p t2 ih =>
    have hp1 : p ≠ '%' := fun he => h1 (he ▸ List.mem_cons_self p t2)
    have hp2 : p ≠ '_' := fun he => h2 (he ▸ List.mem_cons_self p t2)
    have ht1 : '%' ∉ t2 := fun hm => h1 (List.mem_cons_of_mem p hm)
    have ht2 : '_' ∉ t2 := fun hm => h2 (List.mem_cons_of_mem p hm)
    intro s
    cases s with
    | nil =>
      simp only [List.cons_append, likeMatch, if_neg hp1]
      constructor
      · intro h; cases h
      · rintro ⟨suf, hsuf⟩; cases hsuf
    | cons c s2 =>
      have hstep : likeMatch ((p :: t2) ++ ['%']) (c :: s2)
          = ((p == c) && likeMatch (t2 ++ ['%']) s2) := by
        simp only [List.cons_append, likeMatch, if_neg hp1, if_neg hp2, List.append_eq]
      rw [hstep, Bool.and_eq_true, beq_iff_eq, ih ht1 ht2]
      constructor
      · rintro ⟨hpc, suf, hsuf⟩
        exact ⟨suf, by rw [List.cons_append, ← hpc, ← hsuf]⟩
      · rintro ⟨suf, hsuf⟩
        rw [List.cons_append] at hsuf
        injection hsuf with hc hs
        exact ⟨hc.symm, suf, hs⟩

/-- `isSubstrB` decides contiguous-substring occurrence. -/
lemma isSubstrB_iff (t : List Char) :
    ∀ s, isSubstrB t s = true ↔ ∃ a b, s = a ++ t ++ b := by
  intro s
  induction s with
  | nil =>
    simp only [isSubstrB, List.isEmpty_iff]
    constructor
    · intro h
      exact ⟨[], [], by simp [h]⟩
    · rintro ⟨a, b, hab⟩
      rcases List.append_eq_nil.mp (List.append_eq_nil.mp hab.symm).1 with ⟨-, ht⟩
      exact ht
  | cons c s2 ih =>
    simp only [isSubstrB, Bool.or_eq_true, ih]
    rw [List.isPrefixOf_iff_prefix]
    constructor
    · rintro (⟨b, hb⟩ | ⟨a, b, hab⟩)
      · exact ⟨[], b, by simp [← hb]⟩
      · exact ⟨c :: a, b, by simp [hab]⟩
    · rintro ⟨a, b, hab⟩
      cases a with
      | nil => exact Or.inl ⟨b, by simpa using hab.symm⟩
      | cons x a2 =>
        rw [List.cons_append, List.cons_append] at hab
        injection hab with hc hs
        exact Or.inr ⟨a2, b, hs⟩

/-- Bridge: for a term with no LIKE metacharacters, matching the pattern
`%term%` coincides with contiguous-substring occurrence. -/
lemma likeMatch_termPattern_iff (t s : List Char) (h1 : '%' ∉ t) (h2 : '_' ∉ t) :
    likeMatch (termPattern t) s = true ↔ ∃ a b, s = a ++ t ++ b := by
  unfold termPattern
  rw [likeMatch_percent_iff]
  constructor
  · rintro ⟨suf, ⟨pre, hpre⟩, hm⟩
    rw [likeMatch_lit_iff t h1 h2] at hm
    obtain ⟨b, hb⟩ := hm
    exact ⟨pre, b, by rw [List.append_assoc, ← hb, hpre]⟩
  · rintro ⟨a, b, hab⟩
    refine ⟨t ++ b, ⟨a, by rw [hab, List.append_assoc]⟩, ?_⟩
    rw [likeMatch_lit_iff t h1 h2]
    exact ⟨b, rfl⟩

/-- C7 counterexample: the query `"%"` is one term; the SQL pattern is built by
unescaped interpolation (`f"%{term}%"`), so the `%` stays a wildcard and the
single content row `"abc"` is returned although `"%"` does not occur in it as a
substring — the claim's "every term occurs as a substring of the row's
content, and a row missing any term is never returned" fails. -/
theorem search_wildcard_term_counterexample :
    search_in_knowledge_base
        { docs := [{ doc_id := 1, filename := "f.pdf", title := "D", upload_date := 0,
                     file_path := "f.pdf", num_pages := 1, admin_id := 0 }],
          contents := [{ content_id := 1, doc_id := 1, page_num := 1,
                         content := ('a' :: 'b' :: 'c' :: []) }] }
        (['%']) 10
      = [{ doc_id := 1, title := "D", page_num := 1 }] ∧
    ¬ ∃ a b, ('a' :: 'b' :: 'c' :: []) = a ++ ['%'] ++ b := by
  constructor
  · rfl
  · rintro ⟨a, b, hab⟩
    have hmem : ('%' : Char) ∈ ('a' :: 'b' :: 'c' :: []) := by
      rw [hab]
      simp
    simp at hmem

/-- C7 (amended): with the query lowercased and split on whitespace, an empty
term list yields no results; otherwise the search returns exactly the joined
content rows whose lowercased content matches *every term interpreted as an
SQL LIKE pattern* `%term%` (unescaped, so `%` and `_` inside a term act as
wildcards), in row order truncated to `limit`; at most `limit` rows are
returned; and for terms free of LIKE metacharacters the per-term condition
coincides with case-insensitive contiguous-substring occurrence. -/
theorem search_in_knowledge_base_spec (kb : KB) (query : List Char) (lim : Nat) :
    (pySplit (lowerL query) = [] → search_in_knowledge_base kb query lim = []) ∧
    (pySplit (lowerL query) ≠ [] →
      search_in_knowledge_base kb query lim
        = (((joinRows kb).filter (fun r =>
              (pySplit (lowerL query)).all (fun t =>
                likeMatch (termPattern t) (lowerL r.content)))).take lim).map
            (fun r => { doc_id := r.doc_id, title := r.title, page_num := r.page_num })) ∧
    (search_in_knowledge_base kb query lim).length ≤ lim ∧
    (∀ t s, '%' ∉ t → '_' ∉ t →
      (likeMatch (termPattern t) s = true ↔ ∃ a b, s = a ++ t ++ b)) := by
  refine ⟨?_, ?_, ?_, fun t s h1 h2 => likeMatch_termPattern_iff t s h1 h2⟩
  · intro hempty
    unfold search_in_knowledge_base
    rw [if_pos (by rw [List.isEmpty_iff]; exact hempty)]
  · intro hne
    unfold search_in_knowledge_base
    rw [if_neg (by rw [List.isEmpty_iff]; exact hne)]
  · unfold search_in_knowledge_base
    by_cases hempty : (pySplit (lowerL query)).isEmpty
    · rw [if_pos hempty]
      simp
    · rw [if_neg hempty]
      dsimp only
      rw [List.length_map]
      exact List.length_take_le lim _

/-- The page header is never the empty string. -/
lemma docHeader_ne_nil (t : String) (p : Nat) : docHeader t p ≠ [] := by
  unfold docHeader
  intro h
  rw [String.data_append, String.data_append, String.data_append,
    String.data_append] at h
  rcases List.append_eq_nil.mp
    (List.append_eq_nil.mp (List.append_eq_nil.mp (List.append_eq_nil.mp h).1).1).1
    with ⟨hfirst, -⟩
  exact absurd hfirst (by decide)

/-- Joining a nonempty list of nonempty pieces is nonempty. -/
lemma intercalate_ne_nil (sep : List Char) (xs : List (List Char))
    (hne : xs ≠ []) (hall : ∀ x ∈ xs, x ≠ []) :
    List.intercalate sep xs ≠ [] := by
  cases xs with
  | nil => exact absurd rfl hne
  | cons x rest =>
    cases rest with
    | nil =>
      have hx : List.intercalate sep [x] = x := by
        simp [List.intercalate]
      rw [hx]
      exact hall x (List.mem_cons_self x [])
    | cons y t =>
      unfold List.intercalate
      rw [List.intersperse_cons_cons, List.flatten_cons]
      intro h
      rcases List.append_eq_nil.mp h with ⟨hx, -⟩
      exact hall x (List.mem_cons_self x _) hx

/-- C8 counterexample: with one content row whose stored text is empty and the
query `"%"`, the search returns that row as a hit, but the re-fetched page
content is the empty string, every block is dropped, and
`get_content_for_query` returns the *empty string* (not `None`) — refuting
"never returns an empty string". -/
theorem get_content_for_query_empty_string_counterexample :
    search_in_knowledge_base
        { docs := [{ doc_id := 1, filename := "f.pdf", title := "D", upload_date := 0,
                     file_path := "f.pdf", num_pages := 1, admin_id := 0 }],
          contents := [{ content_id := 1, doc_id := 1, page_num := 1, content := [] }] }
        (['%']) 5
      = [{ doc_id := 1, title := "D", page_num := 1 }] ∧
    get_content_for_query
        { docs := [{ doc_id := 1, filename := "f.pdf", title := "D", upload_date := 0,
                     file_path := "f.pdf", num_pages := 1, admin_id := 0 }],
          contents := [{ content_id := 1, doc_id := 1, page_num := 1, content := [] }] }
        (['%'])
      = some [] :=
  ⟨rfl, rfl⟩

/-- C8 (amended): `get_content_for_query` returns `None` exactly when the
search yields no hits; when there are hits it returns `some` of the joined
header-plus-content blocks of the hits whose re-fetched page content is
non-empty — a string that is empty precisely when every hit's page content is
empty (or missing), and non-empty otherwise. -/
theorem get_content_for_query_spec (kb : KB) (query : List Char) :
    (search_in_knowledge_base kb query 5 = [] →
      get_content_for_query kb query = none) ∧
    (search_in_knowledge_base kb query 5 ≠ [] →
      ∃ s, get_content_for_query kb query = some s ∧
        (s = [] ↔ ∀ hit ∈ search_in_knowledge_base kb query 5,
          ∀ pc, get_page_content kb hit.doc_id hit.page_num = some pc → pc = [])) := by
  constructor
  · intro h
    unfold get_content_for_query
    rw [if_pos (by rw [List.isEmpty_iff]; exact h)]
  · intro hne
    unfold get_content_for_query
    rw [if_neg (by rw [List.isEmpty_iff]; exact hne)]
    dsimp only
    refine ⟨_, rfl, ?_⟩
    constructor
    · intro hs hit hmem pc hpc
      by_contra hpcne
      have hx : (docHeader hit.title hit.page_num ++ pc) ∈
          (search_in_knowledge_base kb query 5).filterMap (fun h =>
            match get_page_content kb h.doc_id h.page_num with
            | some pc => if pc.isEmpty then none
                         else some (docHeader h.title h.page_num ++ pc)
            | none => none) := by
        rw [List.mem_filterMap]
        refine ⟨hit, hmem, ?_⟩
        rw [hpc]
        dsimp only
        rw [if_neg (by rw [List.isEmpty_iff]; exact hpcne)]
      have hallne : ∀ x ∈ (search_in_knowledge_base kb query 5).filterMap (fun h =>
          match get_page_content kb h.doc_id h.page_num with
          | some pc => if pc.isEmpty then none
                       else some (docHeader h.title h.page_num ++ pc)
          | none => none), x ≠ [] := by
        intro x hxmem
        rw [List.mem_filterMap] at hxmem
        obtain ⟨a, -, hfa⟩ := hxmem
        cases hgpc : get_page_content kb a.doc_id a.page_num with
        | none => rw [hgpc] at hfa; cases hfa
        | some pc2 =>
            rw [hgpc] at hfa
            dsimp only at hfa
            by_cases hpc2 : pc2.isEmpty
            · rw [if_pos hpc2] at hfa; cases hfa
            · rw [if_neg hpc2] at hfa
              injection hfa with hfa
              rw [← hfa]
              intro hcontra
              rcases List.append_eq_nil.mp hcontra with ⟨hh, -⟩
              exact docHeader_ne_nil a.title a.page_num hh
      exact intercalate_ne_nil _ _ (List.ne_nil_of_mem hx) hallne hs
    · intro hall
      have hrel : (search_in_knowledge_base kb query 5).filterMap (fun h =>
          match get_page_content kb h.doc_id h.page_num with
          | some pc => if pc.isEmpty then none
                       else some (docHeader h.title h.page_num ++ pc)
          | none => none) = [] := by
        rw [List.filterMap_eq_nil_iff]
        intro a hamem
        cases hgpc : get_page_content kb a.doc_id a.page_num with
        | none => rfl
        | some pc =>
            dsimp only
            rw [if_pos (by rw [List.isEmpty_iff]; exact hall a hamem pc hgpc)]
      rw [hrel]
      rfl

/-- The content-insertion loop of `add_document_to_knowledge_base` never
touches the docs table and only appends content rows carrying `newId`. -/
lemma content_fold_spec (newId : Nat) (oracle : List Bool) :
    ∀ (l : List (Nat × Nat × List Char)) (acc : KB),
      (l.foldl (fun (acc : KB) p =>
        if oracle.getD (2 + p.1) true then
          { acc with contents := acc.contents ++
              [{ content_id := nextContentId acc, doc_id := newId,
                 page_num := p.2.1, content := p.2.2 }] }
        else acc) acc).docs = acc.docs ∧
      ∀ c ∈ (l.foldl (fun (acc : KB) p =>
        if oracle.getD (2 + p.1) true then
          { acc with contents := acc.contents ++
              [{ content_id := nextContentId acc, doc_id := newId,
                 page_num := p.2.1, content := p.2.2 }] }
        else acc) acc).contents, c ∈ acc.contents ∨ c.doc_id = newId := by
  intro l
  induction l with
  | nil => exact fun acc => ⟨rfl, fun c hc => Or.inl hc⟩
  | cons p t ih =>
    intro acc
    rw [List.foldl_cons]
    by_cases hor : oracle.getD (2 + p.1) true
    · rw [if_pos hor]
      refine ⟨(ih _).1, fun c hc => ?_⟩
      rcases (ih _).2 c hc with hmem | hid
      · rcases List.mem_append.mp hmem with hold | hnew
        · exact Or.inl hold
        · rw [List.mem_singleton] at hnew
          subst hnew
          exact Or.inr rfl
      · exact Or.inr hid
    · rw [if_neg hor]
      exact ih acc

/-- C4 counterexample: a valid non-empty one-page PDF whose document INSERT
succeeds but whose doc-id SELECT fails (the store's `execute_query` returns
`None` after a SQLite error, with the INSERT already committed on the
autocommit connection) makes `add_document_to_knowledge_base` return
`success = False` while the `knowledge_base_docs` row remains — refuting the
claim that no rows for the document exist after any failure result. -/
theorem add_document_partial_write_counterexample :
    (add_document_to_knowledge_base { docs := [], contents := [] }
        { found := true, isPdf := true, size := 5, copyOk := true,
          pages := [(1, ['x'])] } "f.pdf" "T" 0 (true :: false :: [])).2 = false ∧
    (add_document_to_knowledge_base { docs := [], contents := [] }
        { found := true, isPdf := true, size := 5, copyOk := true,
          pages := [(1, ['x'])] } "f.pdf" "T" 0 (true :: false :: [])).1.docs
      = [{ doc_id := 1, filename := "f.pdf", title := "T", upload_date := 0,
           file_path := "f.pdf", num_pages := 1, admin_id := 0 }] ∧
    (add_document_to_knowledge_base { docs := [], contents := [] }
        { found := true, isPdf := true, size := 5, copyOk := true,
          pages := [(1, ['x'])] } "f.pdf" "T" 0 (true :: false :: [])).1.contents
      = [] :=
  ⟨rfl, rfl, rfl⟩

/-- C4 (amended): on every failure result the content table is unchanged, and
the docs table is unchanged as well *except* on the one path where the
document INSERT succeeded and the subsequent doc-id SELECT failed, which
leaves exactly the new document row (with no content rows for it); validation
failures — missing/non-PDF/zero-byte file, failed copy, empty extraction —
and a failed document INSERT return failure with the store fully unchanged;
and content rows never exist without their document row (every content row
present afterwards is either pre-existing or carries the doc_id of a document
row present afterwards). -/
theorem add_document_atomicity (kb : KB) (f : FileInfo) (fn title : String)
    (now : Nat) (oracle : List Bool) :
    ((add_document_to_knowledge_base kb f fn title now oracle).2 = false →
      (add_document_to_knowledge_base kb f fn title now oracle).1.contents
          = kb.contents ∧
      ((add_document_to_knowledge_base kb f fn title now oracle).1.docs = kb.docs ∨
        (oracle.getD 1 true = false ∧
         (add_document_to_knowledge_base kb f fn title now oracle).1.docs
           = kb.docs ++
             [{ doc_id := nextDocId kb, filename := fn, title := title,
                upload_date := now, file_path := fn,
                num_pages := f.pages.length, admin_id := 0 }]))) ∧
    ((f.size = 0 ∨ f.pages = []) →
      (add_document_to_knowledge_base kb f fn title now oracle).2 = false ∧
      (add_document_to_knowledge_base kb f fn title now oracle).1 = kb) ∧
    (∀ c ∈ (add_document_to_knowledge_base kb f fn title now oracle).1.contents,
      c ∈ kb.contents ∨
      ∃ d ∈ (add_document_to_knowledge_base kb f fn title now oracle).1.docs,
        d.doc_id = c.doc_id) := by
  unfold add_document_to_knowledge_base
  by_cases h1 : f.found
  case neg =>
    rw [if_pos (by simp [h1])]
    exact ⟨fun _ => ⟨rfl, Or.inl rfl⟩, fun _ => ⟨rfl, rfl⟩, fun c hc => Or.inl hc⟩
  case pos =>
  rw [if_neg (by simp [h1])]
  by_cases h2 : f.isPdf
  case neg =>
    rw [if_pos (by simp [h2])]
    exact ⟨fun _ => ⟨rfl, Or.inl rfl⟩, fun _ => ⟨rfl, rfl⟩, fun c hc => Or.inl hc⟩
  case pos =>
  rw [if_neg (by simp [h2])]
  by_cases h3 : f.size = 0
  case pos =>
    rw [if_pos (by simp [h3])]
    exact ⟨fun _ => ⟨rfl, Or.inl rfl⟩, fun _ => ⟨rfl, rfl⟩, fun c hc => Or.inl hc⟩
  case neg =>
  rw [if_neg (by simp [h3])]
  by_cases h4 : f.copyOk
  case neg =>
    rw [if_pos (by simp [h4])]
    exact ⟨fun _ => ⟨rfl, Or.inl rfl⟩, fun _ => ⟨rfl, rfl⟩, fun c hc => Or.inl hc⟩
  case pos =>
  rw [if_neg (by simp [h4])]
  by_cases h5 : f.pages.length = 0
  case pos =>
    rw [if_pos (by simp [h5])]
    exact ⟨fun _ => ⟨rfl, Or.inl rfl⟩, fun _ => ⟨rfl, rfl⟩, fun c hc => Or.inl hc⟩
  case neg =>
  rw [if_neg (by simp [h5])]
  have hpages : ¬ (f.size = 0 ∨ f.pages = []) := by
    rintro (hs | hp)
    · exact h3 hs
    · exact h5 (by rw [hp]; rfl)
  by_cases h6 : oracle.getD 0 true = false
  case pos =>
    rw [if_pos (by rw [beq_iff_eq]; exact h6)]
    exact ⟨fun _ => ⟨rfl, Or.inl rfl⟩, fun h => absurd h hpages, fun c hc => Or.inl hc⟩
  case neg =>
  rw [if_neg (by rw [beq_iff_eq]; exact h6)]
  by_cases h7 : kb.docs.any (fun d => d.filename == fn)
  case pos =>
    rw [if_pos h7]
    exact ⟨fun _ => ⟨rfl, Or.inl rfl⟩, fun h => absurd h hpages, fun c hc => Or.inl hc⟩
  case neg =>
  rw [if_neg h7]
  dsimp only
  by_cases h8 : oracle.getD 1 true = false
  case pos =>
    rw [if_pos (by rw [beq_iff_eq]; exact h8)]
    exact ⟨fun _ => ⟨rfl, Or.inr ⟨h8, rfl⟩⟩, fun h => absurd h hpages,
      fun c hc => Or.inl hc⟩
  case neg =>
  rw [if_neg (by rw [beq_iff_eq]; exact h8)]
  dsimp only
  obtain ⟨hdocs, hconts⟩ := content_fold_spec (nextDocId kb) oracle f.pages.enum
    { kb with docs := kb.docs ++
        [{ doc_id := nextDocId kb, filename := fn, title := title,
           upload_date := now, file_path := fn,
           num_pages := f.pages.length, admin_id := 0 }] }
  refine ⟨fun hfalse => (nomatch hfalse), fun h => absurd h hpages, fun c hc => ?_⟩
  rcases hconts c hc with hmem | hid
  · exact Or.inl hmem
  · refine Or.inr
      ⟨{ doc_id := nextDocId kb, filename := fn, title := title,
         upload_date := now, file_path := fn,
         num_pages := f.pages.length, admin_id := 0 }, ?_, hid.symm⟩
    rw [hdocs]
    exact List.mem_append.mpr (Or.inr (List.mem_singleton.mpr rfl))

end TGBot
